import Mathlib

/-!
Verification of the otaku-shi backend (Express server, `src/unnamed/part_000`).

Part 1 — the request-serialization queue.

The source (lines 79-112):

  const RATE_LIMIT_DELAY = 1000;
  const queue = [];
  let isProcessing = false;

  function enqueueRequest(requestFn) {
    return new Promise((resolve, reject) => {
      queue.push({ requestFn, resolve, reject });
      if (!isProcessing) { processQueue(); }
    });
  }

  async function processQueue() {
    if (queue.length === 0) { isProcessing = false; return; }
    isProcessing = true;
    const { requestFn, resolve, reject } = queue.shift();
    try { const result = await requestFn(); resolve(result); }
    catch (error) { reject(error); }
    setTimeout(processQueue, RATE_LIMIT_DELAY);
  }

Embedding.  JavaScript is single-threaded and cooperative, so the whole
behaviour of the queue is determined by the sequence of `enqueueRequest`
calls (each at some instant, with a work function that settles after some
duration with a success or a failure) and the timer events.  We model a
submitted work function abstractly by its settle duration and its outcome
(`ok`/`value`); time is a `Nat` of milliseconds on a virtual clock where
timers fire exactly on schedule.

Between job executions the loop is in one of two states, exactly as in the
code: idle (`isProcessing = false`, no pending `setTimeout`) or waiting for
the one scheduled `setTimeout(processQueue, RATE_LIMIT_DELAY)` to fire at a
known instant (`isProcessing = true`).  `drain` runs the system to
quiescence: `upcoming` are the not-yet-arrived submissions in arrival
order, `pending` is the contents of the mutable `queue` array.
-/

def RATE_LIMIT_DELAY : Nat := 1000

/-- A submission to `enqueueRequest`: `arrival` is the instant the call is
made, `duration` how long the promise returned by `requestFn()` takes to
settle, `ok` whether it fulfills (`resolve`) or rejects (`reject`),
`value` the settled value (or error). `jid` identifies the submission. -/
structure Job where
  jid : Nat
  arrival : Nat
  duration : Nat
  ok : Bool
  value : Nat
deriving Repr, DecidableEq

/-- One executed job, as observed on the virtual clock: the work function
is invoked at `start`, its outcome is delivered to the submission's promise
(`resolve`/`reject`) at `deliver = start + duration`. -/
structure Event where
  jid : Nat
  start : Nat
  deliver : Nat
  ok : Bool
  value : Nat
deriving Repr, DecidableEq

/-- Loop state between job executions: `none` = idle (`isProcessing`
false, no timer); `some t` = `processQueue` is scheduled to run at
instant `t` (either by the `setTimeout` at line 111, or synchronously
from `enqueueRequest` at the instant of an arrival into an idle queue). -/
abbrev LoopState := Option Nat

/-- Run the queue to quiescence.  In the idle state the next arrival is
pushed (line 86) and `processQueue` runs synchronously at that instant
(lines 88-89).  When `processQueue` runs at instant `t`, every submission
that arrived strictly before `t` has already been pushed onto the array;
if the array is empty the loop goes idle (lines 95-97), otherwise the head
job is shifted (line 101), its work runs from `t` to `t + duration`, its
outcome is delivered (lines 104-107), and the next `processQueue` is
scheduled for `RATE_LIMIT_DELAY` later (line 111). -/
def drain (upcoming pending : List Job) (st : LoopState) : List Event :=
  match st with
  | none =>
    match upcoming with
    | [] => []
    | j :: rest => drain rest (pending ++ [j]) (some j.arrival)
  | some t =>
    match h : pending ++ upcoming.takeWhile (fun j => j.arrival < t) with
    | [] => drain (upcoming.dropWhile (fun j => j.arrival < t)) [] none
    | j :: ps =>
      ⟨j.jid, t, t + j.duration, j.ok, j.value⟩ ::
        drain (upcoming.dropWhile (fun j => j.arrival < t)) ps
          (some (t + j.duration + RATE_LIMIT_DELAY))
termination_by 3 * (upcoming.length + pending.length) + 2 * upcoming.length +
  (match st with | none => 0 | some _ => 1)
decreasing_by
  · simp only [List.length_append, List.length_cons, List.length_nil]
    omega
  · have hlen := congrArg List.length
      (List.takeWhile_append_dropWhile (p := fun j => j.arrival < t)
        (l := upcoming))
    have hnil := List.append_eq_nil.mp h
    have hp := congrArg List.length hnil.1
    have ht := congrArg List.length hnil.2
    simp only [List.length_append, List.length_nil] at hlen hp ht ⊢
    omega
  · have hlen := congrArg List.length
      (List.takeWhile_append_dropWhile (p := fun j => j.arrival < t)
        (l := upcoming))
    have hlen2 := congrArg List.length h
    simp only [List.length_append, List.length_cons] at hlen hlen2
    omega

/-- The whole system starting from process start: empty queue, idle. -/
def runQueue (jobs : List Job) : List Event :=
  drain jobs [] none

/-- Arrivals listed in chronological (submission) order: the order in which
`enqueueRequest` is called.  Simultaneous submissions are allowed. -/
abbrev arrivalMono (l : List Job) : Prop :=
  List.Chain' (fun a b => a.arrival ≤ b.arrival) l

/-- The schedule part of an event: which job ran, when its work function
was invoked and when its outcome was delivered. -/
def schedOf (e : Event) : Nat × Nat × Nat := (e.jid, e.start, e.deliver)

/-- The same submission with its outcome replaced by a success: arrival,
duration and identity are untouched. -/
def forceOk (j : Job) : Job := { j with ok := true, value := 0 }

/-- The instant at which the `processQueue` scheduled after the last event
fires (`t` if there is no event: no timer was ever set). -/
def endTime (t : Nat) : List Event → Nat
  | [] => t
  | e :: es => endTime (e.deliver + RATE_LIMIT_DELAY) es

/-- Collapsed timing law of the drain loop: executed in submission order,
each job starts at the later of (a) the instant `RATE_LIMIT_DELAY` after
the previous job's outcome was delivered (the pending `setTimeout`) and
(b) its own arrival (if the loop had already gone idle, `enqueueRequest`
starts it synchronously).  Proved equal to `drain` below
(`runQueue_eq_drainSpec`). -/
def drainSpec : List Job → Nat → List Event
  | [], _ => []
  | j :: rest, t =>
    ⟨j.jid, max t j.arrival, max t j.arrival + j.duration, j.ok, j.value⟩ ::
      drainSpec rest (max t j.arrival + j.duration + RATE_LIMIT_DELAY)

/-!
Part 2 — the HTTP boundary and the three recommendation assemblers
(`src/unnamed/part_000`, lines 115-605).

The upstream catalog API (Jikan) is modelled as an oracle `Upstream`: one
field per distinct endpoint shape used by the server, each returning the
parsed `data` payload of the HTTP response or a failure (a rejected axios
promise, carrying its error message).  An assembler issues these calls
through the request queue of Part 1; the queue delivers each call's own
outcome unchanged, so for the data-flow claims below the oracle is
consulted directly.
-/

/-- A genre object of the catalog payload (`mal_id`, `name`). -/
structure Genre where
  malId : Nat
  name : String
deriving Repr, DecidableEq

/-- A manga or anime payload, with the fields the server reads. -/
structure MediaItem where
  malId : Nat
  title : String
  genres : List Genre
  authors : List String
  studios : List String
  typ : Option String
  synopsis : Option String
  imageUrl : String
  url : String
  score : Option Int
  chapters : Option Nat
  episodes : Option Nat
  background : Option String
  demographics : List String
deriving Repr, DecidableEq

/-- One element of a `/recommendations` payload: the recommended entry's
id and title, and the vote count. -/
structure RecEntry where
  entryMalId : Nat
  entryTitle : String
  votes : Nat
deriving Repr, DecidableEq

/-- A normalized recommendation record as placed in the JSON response
(manga/manhwa records fill `chapters`, anime records fill `episodes`). -/
structure RecOut where
  title : String
  creator : String
  typ : String
  genres : List String
  description : String
  similarTo : String
  whyRecommended : String
  image : String
  url : String
  score : Option Int
  chapters : Option Nat
  episodes : Option Nat
deriving Repr, DecidableEq

/-- The structured JSON response sent by the route: a success body
(`res.json({recommendations, baseTitle, mediaType})`, status 200) or an
error body (`res.status(s).json({error, details?})`). -/
inductive HttpRes
  | json (recommendations : List RecOut) (baseTitle : String)
      (mediaType : String)
  | err (status : Nat) (error : String) (details : Option String)
deriving Repr, DecidableEq

/-- The upstream catalog oracle; arguments mirror the query parameters in
the URLs built by the server (search query and `limit`, ids, genre id). -/
structure Upstream where
  searchManga : String → Nat → Except String (List MediaItem)
  mangaRecs : Nat → Except String (List RecEntry)
  mangaById : Nat → Except String MediaItem
  mangaByGenre : Nat → Nat → Except String (List MediaItem)
  searchMangaByScore : String → Nat → Except String (List MediaItem)
  topManga : Nat → Except String (List MediaItem)
  searchAnime : String → Nat → Except String (List MediaItem)
  animeRecs : Nat → Except String (List RecEntry)
  animeById : Nat → Except String MediaItem
  animeByGenre : Nat → Nat → Except String (List MediaItem)
  topAnime : Nat → Except String (List MediaItem)

/-- `s.toLowerCase()`: per-character lowercasing (`Char.toLower`), kept as
a plain list map so that concrete instances evaluate in the kernel. -/
def jsToLower (s : String) : String := ⟨s.data.map Char.toLower⟩

/-- JavaScript `x || d` for a string that may be absent (`undefined` or
`null`) or empty (both falsy). -/
def jsOrStr (s : Option String) (d : String) : String :=
  match s with
  | none => d
  | some v => if v = "" then d else v

/-- `list.join(', ')`. -/
def joinComma (l : List String) : String := String.intercalate ", " l

/-- `list?.map(x => x.name).join(', ') || "Unknown"`: an empty join is
falsy, so it falls back to `"Unknown"`. -/
def joinCommaOrUnknown (l : List String) : String :=
  if joinComma l = "" then "Unknown" else joinComma l

/-- The genre filter of the detail-fetch tier (lines 194-202 and 489-497):
with a non-empty `genres` filter, an item is skipped when none of the
requested genres occurs in its lowercased genre names. -/
def genreFilterRejects (genres : Option (List String)) (m : MediaItem) :
    Bool :=
  match genres with
  | none => false
  | some gs =>
    decide (0 < gs.length) &&
      !((gs.map jsToLower).any (fun g =>
        (m.genres.map (fun x => jsToLower x.name)).contains g))

/-- The exclusion filter (lines 204-212 and 499-507): with a non-empty
`exclude` filter, an item is skipped when any excluded genre occurs in its
lowercased genre names. -/
def excludeFilterRejects (exclude : Option (List String)) (m : MediaItem) :
    Bool :=
  match exclude with
  | none => false
  | some es =>
    decide (0 < es.length) &&
      (es.map jsToLower).any (fun g =>
        (m.genres.map (fun x => jsToLower x.name)).contains g)

/-- The record built for one crowd-sourced manga recommendation
(lines 214-226). -/
def mangaDetailRecOut (titles : List String) (r : RecEntry)
    (manga : MediaItem) : RecOut :=
  { title := manga.title
    creator := joinComma manga.authors
    typ := jsOrStr manga.typ "Manga"
    genres := manga.genres.map Genre.name
    description := jsOrStr manga.synopsis "No description available"
    similarTo := titles.headD ""
    whyRecommended := "Recommended by " ++ toString r.votes ++
      " MyAnimeList users who also enjoyed " ++ titles.headD ""
    image := manga.imageUrl
    url := manga.url
    score := manga.score
    chapters := manga.chapters
    episodes := none }

/-- One detail fetch of the crowd-sourced tier (lines 185-231): fetch the
full manga, apply the two filters, build the record; any failure of the
fetch is caught per item and yields `null`. -/
def mangaDetailFetch (titles : List String)
    (genres exclude : Option (List String)) (u : Upstream) (r : RecEntry) :
    Option RecOut :=
  match u.mangaById r.entryMalId with
  | .error _ => none
  | .ok manga =>
    if genreFilterRejects genres manga then none
    else if excludeFilterRejects exclude manga then none
    else some (mangaDetailRecOut titles r manga)

/-- The record built for one genre-based fallback manga (lines 255-267). -/
def mangaGenreRecOut (titles : List String) (g0 : Genre) (m : MediaItem) :
    RecOut :=
  { title := m.title
    creator := joinCommaOrUnknown m.authors
    typ := jsOrStr m.typ "Manga"
    genres := m.genres.map Genre.name
    description := jsOrStr m.synopsis "No description available"
    similarTo := titles.headD ""
    whyRecommended := "Shares the " ++ g0.name ++ " genre with " ++
      titles.headD ""
    image := m.imageUrl
    url := m.url
    score := m.score
    chapters := m.chapters
    episodes := none }

/-- The record built for one top-ranked fallback manga (lines 283-295). -/
def mangaTopRecOut (titles : List String) (m : MediaItem) : RecOut :=
  { title := m.title
    creator := joinCommaOrUnknown m.authors
    typ := jsOrStr m.typ "Manga"
    genres := m.genres.map Genre.name
    description := jsOrStr m.synopsis "No description available"
    similarTo := titles.headD ""
    whyRecommended := "This is a highly rated manga on MyAnimeList"
    image := m.imageUrl
    url := m.url
    score := m.score
    chapters := m.chapters
    episodes := none }

/-- The crowd-sourced tier of the manga assembler (lines 177-235): the
first 8 recommendation entries, detail-fetched and filtered, nulls
removed; empty when the recommendations payload is empty. -/
def mangaTier1 (titles : List String)
    (genres exclude : Option (List String)) (u : Upstream)
    (recsData : List RecEntry) : List RecOut :=
  if 0 < recsData.length then
    ((recsData.take 8).map
      (mangaDetailFetch titles genres exclude u)).filterMap id
  else []

/-- The genre-based tier of the manga assembler (lines 237-271), appended
when the crowd-sourced tier has fewer than 5 records and the base manga
has at least one genre. -/
def mangaTier2 (titles : List String) (u : Upstream) (base : MediaItem)
    (tier1 : List RecOut) : Except String (List RecOut) :=
  if tier1.length < 5 then
    match base.genres with
    | [] => .ok tier1
    | g0 :: _ =>
      match u.mangaByGenre g0.malId 5 with
      | .error e => .error e
      | .ok gl =>
        .ok (tier1 ++ (gl.filter (fun m => m.malId != base.malId)).map
          (mangaGenreRecOut titles g0))
  else .ok tier1

/-- The top-ranked tier of the manga assembler (lines 273-298), appended
when still fewer than 5 records. -/
def mangaTier3 (titles : List String) (u : Upstream) (base : MediaItem)
    (tier2 : List RecOut) : Except String (List RecOut) :=
  if tier2.length < 5 then
    match u.topManga 5 with
    | .error e => .error e
    | .ok tl =>
      .ok (tier2 ++ (tl.filter (fun m => m.malId != base.malId)).map
        (mangaTopRecOut titles))
  else .ok tier2

/-- Lines 172-305 of `getMangaRecommendations`, after a base manga was
found: crowd-sourced tier, genre-based tier, top-ranked tier, and the
response with the list capped at 5. -/
def mangaAssemble (titles : List String)
    (genres exclude : Option (List String)) (u : Upstream)
    (base : MediaItem) : Except String HttpRes :=
  match u.mangaRecs base.malId with
  | .error e => .error e
  | .ok recsData =>
    match mangaTier2 titles u base
        (mangaTier1 titles genres exclude u recsData) with
    | .error e => .error e
    | .ok tier2 =>
      match mangaTier3 titles u base tier2 with
      | .error e => .error e
      | .ok tier3 => .ok (.json (tier3.take 5) base.title "manga")

/-- `getMangaRecommendations` (lines 144-310): search the first title
(limit 1); if no result and a second title exists, search it; with no
match at all answer 404; otherwise assemble from the first hit.  Failures
of awaited calls propagate (to the route's catch). -/
def getMangaRecommendations (titles : List String)
    (genres exclude : Option (List String)) (u : Upstream) :
    Except String HttpRes :=
  match u.searchManga (titles.headD "") 1 with
  | .error e => .error e
  | .ok sdata =>
    match sdata with
    | [] =>
      if 1 < titles.length then
        match u.searchManga (titles.getD 1 "") 1 with
        | .error e => .error e
        | .ok sdata2 =>
          match sdata2 with
          | [] => .ok (.err 404 ("Could not find manga \"" ++
              titles.headD "" ++ "\" or \"" ++ titles.getD 1 "" ++ "\"")
              none)
          | m :: _ => mangaAssemble titles genres exclude u m
      else .ok (.err 404 ("Could not find manga \"" ++ titles.headD "" ++
        "\"") none)
    | m :: _ => mangaAssemble titles genres exclude u m

/-- `sub` is a leading segment of `s`. -/
def startsAt : List Char → List Char → Bool
  | [], _ => true
  | _ :: _, [] => false
  | a :: as, b :: bs => a == b && startsAt as bs

/-- `sub` occurs as a contiguous segment of `s`. -/
def occursIn : List Char → List Char → Bool
  | sub, [] => sub.isEmpty
  | sub, c :: rest => startsAt sub (c :: rest) || occursIn sub rest

/-- `sub` occurs as a substring of `s` (JavaScript `s.includes(sub)`). -/
def strContains (s sub : String) : Bool := occursIn sub.toList s.toList

/-- The manhwa detector (lines 326-330): title mentions "manhwa", or the
background mentions "korean", or a demographic is named `Manhwa`. -/
def looksManhwa (m : MediaItem) : Bool :=
  strContains (jsToLower m.title) "manhwa" ||
  (match m.background with
   | some b => strContains (jsToLower b) "korean"
   | none => false) ||
  m.demographics.contains "Manhwa"

/-- The record built for one popular manhwa (lines 385-397). -/
def manhwaRecOut (baseTitle : String) (m : MediaItem) : RecOut :=
  { title := m.title
    creator := joinCommaOrUnknown m.authors
    typ := "Manhwa"
    genres := m.genres.map Genre.name
    description := jsOrStr m.synopsis "No description available"
    similarTo := baseTitle
    whyRecommended := "Popular Korean manhwa with similar appeal"
    image := m.imageUrl
    url := m.url
    score := m.score
    chapters := m.chapters
    episodes := none }

/-- The record built for one top-ranked fallback comic of the manhwa path
(lines 409-421). -/
def manhwaTopRecOut (baseTitle : String) (m : MediaItem) : RecOut :=
  { title := m.title
    creator := joinCommaOrUnknown m.authors
    typ := jsOrStr m.typ "Manga"
    genres := m.genres.map Genre.name
    description := jsOrStr m.synopsis "No description available"
    similarTo := baseTitle
    whyRecommended := "Highly rated comic you might enjoy"
    image := m.imageUrl
    url := m.url
    score := m.score
    chapters := m.chapters
    episodes := none }

/-- The popular-manhwa tier (lines 357-398): drop the base item, apply
both filters to the whole list, keep 5; empty when the search payload is
empty. -/
def manhwaPopular (genres exclude : Option (List String))
    (manhwa : MediaItem) (baseTitle : String) (mdata : List MediaItem) :
    List RecOut :=
  if 0 < mdata.length then
    ((((mdata.filter (fun m => m.malId != manhwa.malId)).filter
      (fun m => !genreFilterRejects genres m)).filter
      (fun m => !excludeFilterRejects exclude m)).take 5).map
      (manhwaRecOut baseTitle)
  else []

/-- The top-manga padding tier of the manhwa path (lines 400-424). -/
def manhwaPad (u : Upstream) (manhwa : MediaItem) (baseTitle : String)
    (recommendations : List RecOut) : Except String (List RecOut) :=
  if recommendations.length < 5 then
    match u.topManga 10 with
    | .error e => .error e
    | .ok tl =>
      .ok (recommendations ++
        (((tl.filter (fun m => m.malId != manhwa.malId)).take
          (5 - recommendations.length)).map (manhwaTopRecOut baseTitle)))
  else .ok recommendations

/-- Lines 352-431 of `getManhwaRecommendations`, after a base manhwa was
picked. -/
def manhwaAssemble (titles : List String)
    (genres exclude : Option (List String)) (u : Upstream)
    (manhwa : MediaItem) (baseTitle : String) : Except String HttpRes :=
  match u.searchMangaByScore "manhwa" 10 with
  | .error e => .error e
  | .ok mdata =>
    match manhwaPad u manhwa baseTitle
        (manhwaPopular genres exclude manhwa baseTitle mdata) with
    | .error e => .error e
    | .ok recs2 => .ok (.json (recs2.take 5) manhwa.title "manhwa")

/-- `getManhwaRecommendations` (lines 313-436): search the first title
(limit 5) and pick the first result that looks like a manhwa, else the
first result; if the search is empty try the second title (its first
result); with no match answer 404. -/
def getManhwaRecommendations (titles : List String)
    (genres exclude : Option (List String)) (u : Upstream) :
    Except String HttpRes :=
  match u.searchManga (titles.headD "") 5 with
  | .error e => .error e
  | .ok sdata =>
    match sdata with
    | m0 :: _ =>
      manhwaAssemble titles genres exclude u
        (match sdata.find? looksManhwa with
         | some m => m
         | none => m0)
        (titles.headD "")
    | [] =>
      if 1 < titles.length then
        match u.searchManga (titles.getD 1 "") 5 with
        | .error e => .error e
        | .ok sdata2 =>
          match sdata2 with
          | m :: _ => manhwaAssemble titles genres exclude u m
              (titles.getD 1 "")
          | [] => .ok (.err 404 "Could not find manhwa with these titles"
              none)
      else .ok (.err 404 ("Could not find manhwa \"" ++ titles.headD "" ++
        "\"") none)

/-- The record built for one crowd-sourced anime recommendation
(lines 509-521). -/
def animeDetailRecOut (titles : List String) (r : RecEntry)
    (anime : MediaItem) : RecOut :=
  { title := anime.title
    creator := joinComma anime.studios
    typ := jsOrStr anime.typ "TV"
    genres := anime.genres.map Genre.name
    description := jsOrStr anime.synopsis "No description available"
    similarTo := titles.headD ""
    whyRecommended := "Recommended by " ++ toString r.votes ++
      " MyAnimeList users who also enjoyed " ++ titles.headD ""
    image := anime.imageUrl
    url := anime.url
    score := anime.score
    chapters := none
    episodes := anime.episodes }

/-- One detail fetch of the anime crowd-sourced tier (lines 480-526). -/
def animeDetailFetch (titles : List String)
    (genres exclude : Option (List String)) (u : Upstream) (r : RecEntry) :
    Option RecOut :=
  match u.animeById r.entryMalId with
  | .error _ => none
  | .ok anime =>
    if genreFilterRejects genres anime then none
    else if excludeFilterRejects exclude anime then none
    else some (animeDetailRecOut titles r anime)

/-- The record built for one genre-based fallback anime (lines 550-562). -/
def animeGenreRecOut (titles : List String) (g0 : Genre) (m : MediaItem) :
    RecOut :=
  { title := m.title
    creator := joinCommaOrUnknown m.studios
    typ := jsOrStr m.typ "TV"
    genres := m.genres.map Genre.name
    description := jsOrStr m.synopsis "No description available"
    similarTo := titles.headD ""
    whyRecommended := "Shares the " ++ g0.name ++ " genre with " ++
      titles.headD ""
    image := m.imageUrl
    url := m.url
    score := m.score
    chapters := none
    episodes := m.episodes }

/-- The record built for one top-ranked fallback anime (lines 578-590). -/
def animeTopRecOut (titles : List String) (m : MediaItem) : RecOut :=
  { title := m.title
    creator := joinCommaOrUnknown m.studios
    typ := jsOrStr m.typ "TV"
    genres := m.genres.map Genre.name
    description := jsOrStr m.synopsis "No description available"
    similarTo := titles.headD ""
    whyRecommended := "This is a highly rated anime on MyAnimeList"
    image := m.imageUrl
    url := m.url
    score := m.score
    chapters := none
    episodes := m.episodes }

/-- The crowd-sourced tier of the anime assembler (lines 472-530). -/
def animeTier1 (titles : List String)
    (genres exclude : Option (List String)) (u : Upstream)
    (recsData : List RecEntry) : List RecOut :=
  if 0 < recsData.length then
    ((recsData.take 8).map
      (animeDetailFetch titles genres exclude u)).filterMap id
  else []

/-- The genre-based tier of the anime assembler (lines 532-566). -/
def animeTier2 (titles : List String) (u : Upstream) (base : MediaItem)
    (tier1 : List RecOut) : Except String (List RecOut) :=
  if tier1.length < 5 then
    match base.genres with
    | [] => .ok tier1
    | g0 :: _ =>
      match u.animeByGenre g0.malId 5 with
      | .error e => .error e
      | .ok gl =>
        .ok (tier1 ++ (gl.filter (fun m => m.malId != base.malId)).map
          (animeGenreRecOut titles g0))
  else .ok tier1

/-- The top-ranked tier of the anime assembler (lines 568-593). -/
def animeTier3 (titles : List String) (u : Upstream) (base : MediaItem)
    (tier2 : List RecOut) : Except String (List RecOut) :=
  if tier2.length < 5 then
    match u.topAnime 5 with
    | .error e => .error e
    | .ok tl =>
      .ok (tier2 ++ (tl.filter (fun m => m.malId != base.malId)).map
        (animeTopRecOut titles))
  else .ok tier2

/-- Lines 467-600 of `getAnimeRecommendations`, after a base anime was
found. -/
def animeAssemble (titles : List String)
    (genres exclude : Option (List String)) (u : Upstream)
    (base : MediaItem) : Except String HttpRes :=
  match u.animeRecs base.malId with
  | .error e => .error e
  | .ok recsData =>
    match animeTier2 titles u base
        (animeTier1 titles genres exclude u recsData) with
    | .error e => .error e
    | .ok tier2 =>
      match animeTier3 titles u base tier2 with
      | .error e => .error e
      | .ok tier3 => .ok (.json (tier3.take 5) base.title "anime")

/-- `getAnimeRecommendations` (lines 439-605): like the manga variant but
against the anime endpoints. -/
def getAnimeRecommendations (titles : List String)
    (genres exclude : Option (List String)) (u : Upstream) :
    Except String HttpRes :=
  match u.searchAnime (titles.headD "") 1 with
  | .error e => .error e
  | .ok sdata =>
    match sdata with
    | [] =>
      if 1 < titles.length then
        match u.searchAnime (titles.getD 1 "") 1 with
        | .error e => .error e
        | .ok sdata2 =>
          match sdata2 with
          | [] => .ok (.err 404 ("Could not find anime \"" ++
              titles.headD "" ++ "\" or \"" ++ titles.getD 1 "" ++ "\"")
              none)
          | m :: _ => animeAssemble titles genres exclude u m
      else .ok (.err 404 ("Could not find anime \"" ++ titles.headD "" ++
        "\"") none)
    | m :: _ => animeAssemble titles genres exclude u m

/-- The `titles` field of the request body as the route can observe it:
absent (`undefined`/`null`), a JSON array of strings, or a JSON string. -/
inductive TitlesField
  | missing
  | arr (l : List String)
  | str (s : String)
deriving Repr, DecidableEq

/-- JavaScript truthiness test `!titles`: `undefined`/`null` and the empty
string are falsy; every array (even an empty one) is truthy. -/
def titlesFalsy : TitlesField → Bool
  | .missing => true
  | .arr _ => false
  | .str s => s == ""

/-- `titles.length`: array length, or string length. -/
def titlesLength : TitlesField → Nat
  | .missing => 0
  | .arr l => l.length
  | .str s => s.length

/-- `titles.join(', ')` (line 123): defined for arrays; on a string (a
non-array) `.join` is not a function, so a TypeError is thrown, which the
route's catch turns into the 500 response. -/
def joinTitles : TitlesField → Except String String
  | .arr l => .ok (String.intercalate ", " l)
  | _ => .error "titles.join is not a function"

/-- The underlying array (only consulted on the array branch). -/
def titlesList : TitlesField → List String
  | .arr l => l
  | _ => []

/-- The media-type dispatch of the route (lines 126-132); anything other
than "anime" or "manhwa" (including the default "manga") goes to the
manga assembler. -/
def dispatch (titles : List String) (genres exclude : Option (List String))
    (mediaType : String) (u : Upstream) : Except String HttpRes :=
  if mediaType == "anime" then getAnimeRecommendations titles genres exclude u
  else if mediaType == "manhwa" then
    getManhwaRecommendations titles genres exclude u
  else getMangaRecommendations titles genres exclude u

/-- The POST route (lines 115-141): answer 400 when `titles` is falsy or
its `length` is 0; otherwise join the titles for the log line (which
throws for a non-array), dispatch on the media type, and turn any thrown
or propagated error into the 500 response with the error message as
`details`. -/
def handleRecommend (titles : TitlesField)
    (genres exclude : Option (List String)) (mediaType : String)
    (u : Upstream) : HttpRes :=
  if titlesFalsy titles || titlesLength titles == 0 then
    .err 400 "Please provide at least one title" none
  else
    match joinTitles titles with
    | .error msg => .err 500 "Failed to get recommendations" (some msg)
    | .ok _ =>
      match dispatch (titlesList titles) genres exclude mediaType u with
      | .ok r => r
      | .error msg => .err 500 "Failed to get recommendations" (some msg)

/-- A base manga returned by the sample search oracle below. -/
def bypassBase : MediaItem :=
  { malId := 1, title := "Base Manga", genres := [⟨4, "Action"⟩],
    authors := ["A"], studios := [], typ := some "Manga",
    synopsis := some "s", imageUrl := "i", url := "u", score := some 9,
    chapters := some 10, episodes := none, background := none,
    demographics := [] }

/-- A horror-only manga served by the genre-based fallback tier. -/
def bypassHorror : MediaItem :=
  { malId := 2, title := "Scary", genres := [⟨14, "Horror"⟩],
    authors := ["B"], studios := [], typ := some "Manga",
    synopsis := some "boo", imageUrl := "i2", url := "u2", score := some 8,
    chapters := some 20, episodes := none, background := none,
    demographics := [] }

/-- A base anime returned by the sample search oracle below. -/
def bypassBaseAnime : MediaItem :=
  { malId := 3, title := "Base Anime", genres := [⟨4, "Action"⟩],
    authors := [], studios := ["S"], typ := some "TV",
    synopsis := some "s", imageUrl := "i3", url := "u3", score := some 9,
    chapters := none, episodes := some 12, background := none,
    demographics := [] }

/-- A horror-only anime served by the genre-based fallback tier. -/
def bypassHorrorAnime : MediaItem :=
  { malId := 4, title := "Scary Anime", genres := [⟨14, "Horror"⟩],
    authors := [], studios := ["T"], typ := some "TV",
    synopsis := some "boo", imageUrl := "i4", url := "u4", score := some 8,
    chapters := none, episodes := some 24, background := none,
    demographics := [] }

/-- An upstream oracle on which the crowd-sourced tier is empty and the
genre-based tier serves exactly one horror item, for both the manga and
the anime paths. -/
def bypassUpstream : Upstream :=
  { searchManga := fun _ _ => .ok [bypassBase]
    mangaRecs := fun _ => .ok []
    mangaById := fun _ => .error "unused"
    mangaByGenre := fun _ _ => .ok [bypassHorror]
    searchMangaByScore := fun _ _ => .ok []
    topManga := fun _ => .ok []
    searchAnime := fun _ _ => .ok [bypassBaseAnime]
    animeRecs := fun _ => .ok []
    animeById := fun _ => .error "unused"
    animeByGenre := fun _ _ => .ok [bypassHorrorAnime]
    topAnime := fun _ => .ok [] }

/-- An upstream oracle on which every search comes back empty. -/
def emptyUpstream : Upstream :=
  { searchManga := fun _ _ => .ok []
    mangaRecs := fun _ => .ok []
    mangaById := fun _ => .error "unused"
    mangaByGenre := fun _ _ => .ok []
    searchMangaByScore := fun _ _ => .ok []
    topManga := fun _ => .ok []
    searchAnime := fun _ _ => .ok []
    animeRecs := fun _ => .ok []
    animeById := fun _ => .error "unused"
    animeByGenre := fun _ _ => .ok []
    topAnime := fun _ => .ok [] }

/-- An upstream oracle whose manga search always fails. -/
def brokenUpstream : Upstream :=
  { emptyUpstream with searchManga := fun _ _ => .error "boom" }

theorem drainSpec_congr (l : List Job) (t t' : Nat)
    (h : ∀ j, l.head? = some j → t ≤ j.arrival ∧ t' ≤ j.arrival) :
    drainSpec l t = drainSpec l t' := by
  cases l with
  | nil => rfl
  | cons j rest =>
    have hj := h j rfl
    simp only [drainSpec, Nat.max_eq_right hj.1, Nat.max_eq_right hj.2]

theorem drain_eq_spec (upcoming pending : List Job) (st : LoopState) :
    (match st with
     | none => pending = [] → arrivalMono upcoming →
        drain upcoming pending none = drainSpec upcoming 0
     | some t => arrivalMono upcoming → (∀ j ∈ pending, j.arrival ≤ t) →
        drain upcoming pending (some t) = drainSpec (pending ++ upcoming) t) := by
  induction upcoming, pending, st using drain.induct with
  | case1 pending =>
    intro hp _
    subst hp
    simp [drain, drainSpec]
  | case2 pending j rest ih =>
    intro hp hmono
    subst hp
    have hrest : arrivalMono rest := hmono.tail
    have hpend : ∀ p ∈ ([j] : List Job), p.arrival ≤ j.arrival := by
      intro p hpj
      simp only [List.mem_singleton] at hpj
      subst hpj
      exact Nat.le_refl _
    have hthis := ih hrest hpend
    simp only [List.nil_append, List.singleton_append] at hthis
    rw [show drain (j :: rest) [] none = drain rest ([] ++ [j]) (some j.arrival)
      from by rw [drain], List.nil_append, hthis]
    apply drainSpec_congr
    intro a ha
    simp only [List.head?_cons, Option.some.injEq] at ha
    subst ha
    exact ⟨Nat.le_refl _, Nat.zero_le _⟩
  | case3 upcoming pending t h ih =>
    intro hmono hpend
    have hnil := List.append_eq_nil.mp h
    have hdrop : upcoming.dropWhile (fun j => j.arrival < t) = upcoming := by
      have h2 := List.takeWhile_append_dropWhile (fun j => j.arrival < t) upcoming
      rw [hnil.2, List.nil_append] at h2
      exact h2
    rw [hdrop] at ih
    rw [drain]
    split
    · rw [hdrop, hnil.1, List.nil_append, ih rfl hmono]
      apply drainSpec_congr
      intro a ha
      refine ⟨Nat.zero_le _, ?_⟩
      cases upcoming with
      | nil => simp at ha
      | cons u rest =>
        simp only [List.head?_cons, Option.some.injEq] at ha
        subst ha
        have htw := hnil.2
        rw [List.takeWhile_cons] at htw
        by_cases hlt : u.arrival < t
        · simp [hlt] at htw
        · omega
    · rename_i j2 ps2 heq
      rw [h] at heq
      cases heq
  | case4 upcoming pending t j ps h ih =>
    intro hmono hpend
    have harr : ∀ x, x ∈ pending ++ upcoming.takeWhile (fun y => y.arrival < t) →
        x.arrival ≤ t := by
      intro x hx
      rcases List.mem_append.mp hx with hx1 | hx2
      · exact hpend x hx1
      · have := List.mem_takeWhile_imp hx2
        simp only [decide_eq_true_eq] at this
        omega
    have hja : j.arrival ≤ t := by
      refine harr j ?_
      rw [h]
      exact List.mem_cons_self _ _
    have hps : ∀ x ∈ ps, x.arrival ≤ t + j.duration + RATE_LIMIT_DELAY := by
      intro x hx
      have hx2 : x ∈ pending ++ upcoming.takeWhile (fun y => y.arrival < t) := by
        rw [h]
        exact List.mem_cons_of_mem _ hx
      have := harr x hx2
      omega
    have hmono2 : arrivalMono (upcoming.dropWhile (fun y => y.arrival < t)) :=
      hmono.suffix (List.dropWhile_suffix _)
    have hih := ih hmono2 hps
    have hsplit : pending ++ upcoming =
        j :: (ps ++ upcoming.dropWhile (fun y => y.arrival < t)) := by
      conv_lhs => rw [← List.takeWhile_append_dropWhile
        (fun y => decide (y.arrival < t)) upcoming]
      rw [← List.append_assoc, h, List.cons_append]
    rw [drain]
    split
    · rename_i heq
      rw [h] at heq
      cases heq
    · rename_i j2 ps2 heq
      rw [h] at heq
      injection heq with h1 h2
      subst h1
      subst h2
      rw [hih, hsplit]
      simp only [drainSpec, Nat.max_eq_left hja]

theorem runQueue_eq_drainSpec (jobs : List Job) (h : arrivalMono jobs) :
    runQueue jobs = drainSpec jobs 0 :=
  drain_eq_spec jobs [] none rfl h

theorem drainSpec_start_ge (l : List Job) (t : Nat) :
    ∀ e ∈ drainSpec l t, t ≤ e.start := by
  induction l generalizing t with
  | nil =>
    intro e he
    simp [drainSpec] at he
  | cons j rest ih =>
    intro e he
    simp only [drainSpec, List.mem_cons] at he
    rcases he with he | he
    · subst he
      exact Nat.le_max_left _ _
    · have h1 := ih _ e he
      have h2 : t ≤ max t j.arrival := Nat.le_max_left _ _
      omega

theorem drainSpec_pairwise_gap (l : List Job) (t : Nat) :
    List.Pairwise (fun a b => a.deliver + RATE_LIMIT_DELAY ≤ b.start)
      (drainSpec l t) := by
  induction l generalizing t with
  | nil => simp [drainSpec]
  | cons j rest ih =>
    simp only [drainSpec]
    refine List.Pairwise.cons ?_ (ih _)
    intro e he
    have h1 := drainSpec_start_ge _ _ e he
    show max t j.arrival + j.duration + RATE_LIMIT_DELAY ≤ e.start
    omega

theorem drainSpec_map_jid (l : List Job) (t : Nat) :
    (drainSpec l t).map Event.jid = l.map Job.jid := by
  induction l generalizing t with
  | nil => rfl
  | cons j rest ih => simp [drainSpec, ih]

theorem drainSpec_forall2 (l : List Job) (t : Nat) :
    List.Forall₂ (fun j e => e.jid = j.jid ∧ e.ok = j.ok ∧ e.value = j.value)
      l (drainSpec l t) := by
  induction l generalizing t with
  | nil => exact List.Forall₂.nil
  | cons j rest ih => exact List.Forall₂.cons ⟨rfl, rfl, rfl⟩ (ih _)

theorem drainSpec_sched_forceOk (l : List Job) (t : Nat) :
    (drainSpec (l.map forceOk) t).map schedOf = (drainSpec l t).map schedOf := by
  induction l generalizing t with
  | nil => rfl
  | cons j rest ih =>
    simp only [List.map_cons, drainSpec, forceOk, schedOf]
    rw [ih]

theorem drainSpec_append_one (l : List Job) (j : Job) (t : Nat) :
    drainSpec (l ++ [j]) t =
      drainSpec l t ++
        [⟨j.jid, max (endTime t (drainSpec l t)) j.arrival,
          max (endTime t (drainSpec l t)) j.arrival + j.duration,
          j.ok, j.value⟩] := by
  induction l generalizing t with
  | nil => simp [drainSpec, endTime]
  | cons a rest ih =>
    simp only [List.cons_append, drainSpec, endTime, List.append_eq]
    rw [ih]

/-- Claim C1: for every pair of consecutively executed jobs, the gap
between the instant job k's outcome is delivered (resolve/reject) and the
instant job k+1's work function is invoked is at least `RATE_LIMIT_DELAY`:
the drain loop waits the fixed delay after delivering an outcome before
starting the next job. -/
theorem C1_rate_limit_spacing (jobs : List Job) (h : arrivalMono jobs) :
    List.Chain' (fun a b => a.deliver + RATE_LIMIT_DELAY ≤ b.start)
      (runQueue jobs) := by
  rw [runQueue_eq_drainSpec jobs h]
  exact (drainSpec_pairwise_gap jobs 0).chain'

theorem C1_rate_limit_spacing_witness :
    List.Chain' (fun a b => a.deliver + RATE_LIMIT_DELAY ≤ b.start)
      (runQueue [⟨0, 0, 50, true, 1⟩, ⟨1, 0, 80, false, 2⟩,
        ⟨2, 5000, 10, true, 3⟩]) :=
  C1_rate_limit_spacing _ (by simp [List.chain'_cons])

/-- Claim C2: jobs' work functions are invoked in exactly the order of
submission (global FIFO): the executed events carry the submitted job ids
in submission order. -/
theorem C2_fifo_order (jobs : List Job) (h : arrivalMono jobs) :
    (runQueue jobs).map Event.jid = jobs.map Job.jid := by
  rw [runQueue_eq_drainSpec jobs h]
  exact drainSpec_map_jid jobs 0

theorem C2_fifo_order_witness :
    (runQueue [⟨10, 0, 7, true, 1⟩, ⟨11, 0, 7, false, 2⟩,
        ⟨12, 3, 7, true, 3⟩]).map Event.jid =
      [⟨10, 0, 7, true, 1⟩, ⟨11, 0, 7, false, 2⟩,
        (⟨12, 3, 7, true, 3⟩ : Job)].map Job.jid :=
  C2_fifo_order _ (by simp [List.chain'_cons])

/-- Claim C3: at most one job's work function is executing at any instant:
the execution intervals [start, deliver] of any two executed jobs are
disjoint (each earlier job's outcome is delivered strictly before any
later job starts). -/
theorem C3_mutual_exclusion (jobs : List Job) (h : arrivalMono jobs) :
    List.Pairwise (fun a b => a.deliver < b.start) (runQueue jobs) := by
  rw [runQueue_eq_drainSpec jobs h]
  refine List.Pairwise.imp ?_ (drainSpec_pairwise_gap jobs 0)
  intro a b hab
  have hd : RATE_LIMIT_DELAY = 1000 := rfl
  omega

theorem C3_mutual_exclusion_witness :
    List.Pairwise (fun a b => a.deliver < b.start)
      (runQueue [⟨0, 2, 500, true, 1⟩, ⟨1, 2, 500, true, 2⟩,
        ⟨2, 2, 500, false, 3⟩]) :=
  C3_mutual_exclusion _ (by simp [List.chain'_cons])

/-- Claim C4: every submitted job whose work function settles is executed
exactly once and its outcome (resolve on success, reject on failure, with
its value) is delivered to its own promise exactly once; no submission is
dropped: submissions and executed events are in one-to-one order-preserving
correspondence. -/
theorem C4_no_silent_drop (jobs : List Job) (h : arrivalMono jobs) :
    List.Forall₂ (fun j e => e.jid = j.jid ∧ e.ok = j.ok ∧ e.value = j.value)
      jobs (runQueue jobs) := by
  rw [runQueue_eq_drainSpec jobs h]
  exact drainSpec_forall2 jobs 0

theorem C4_no_silent_drop_witness :
    List.Forall₂ (fun j e => e.jid = j.jid ∧ e.ok = j.ok ∧ e.value = j.value)
      ([⟨0, 0, 3, false, 9⟩, ⟨1, 1, 4, true, 8⟩] : List Job)
      (runQueue [⟨0, 0, 3, false, 9⟩, ⟨1, 1, 4, true, 8⟩]) :=
  C4_no_silent_drop _ (by simp [List.chain'_cons])

/-- Claim C5: a failing job's rejection is surfaced to its own caller
(event `ok`/`value` equal the job's), and failures do not change the
schedule at all: replacing every outcome by a success yields the identical
sequence of (job id, start, deliver) triples, so a failure delays no
subsequent job beyond the fixed spacing. -/
theorem C5_failure_surfaced_and_isolated (jobs : List Job)
    (h : arrivalMono jobs) :
    List.Forall₂ (fun j e => e.jid = j.jid ∧ e.ok = j.ok ∧ e.value = j.value)
      jobs (runQueue jobs) ∧
    (runQueue (jobs.map forceOk)).map schedOf = (runQueue jobs).map schedOf := by
  have hm : arrivalMono (jobs.map forceOk) := (List.chain'_map _).mpr h
  constructor
  · rw [runQueue_eq_drainSpec jobs h]
    exact drainSpec_forall2 jobs 0
  · rw [runQueue_eq_drainSpec _ hm, runQueue_eq_drainSpec _ h]
    exact drainSpec_sched_forceOk jobs 0

theorem C5_failure_surfaced_and_isolated_witness :
    List.Forall₂ (fun j e => e.jid = j.jid ∧ e.ok = j.ok ∧ e.value = j.value)
      ([⟨0, 0, 3, false, 500⟩, ⟨1, 0, 4, true, 8⟩] : List Job)
      (runQueue [⟨0, 0, 3, false, 500⟩, ⟨1, 0, 4, true, 8⟩]) ∧
    (runQueue ([⟨0, 0, 3, false, 500⟩, ⟨1, 0, 4, true, 8⟩].map forceOk)).map
        schedOf =
      (runQueue [⟨0, 0, 3, false, 500⟩, ⟨1, 0, 4, true, 8⟩]).map schedOf :=
  C5_failure_surfaced_and_isolated _ (by simp [List.chain'_cons])

/-- Claim C6: a submission appended after all others is never lost: it is
executed as the final event, starting at its own arrival if the loop had
gone idle by then (restart), and otherwise at the instant the pending
delay timer fires (`endTime` of the earlier events). -/
theorem C6_append_executes (jobs : List Job) (j : Job)
    (h : arrivalMono (jobs ++ [j])) :
    runQueue (jobs ++ [j]) =
      runQueue jobs ++
        [⟨j.jid, max (endTime 0 (runQueue jobs)) j.arrival,
          max (endTime 0 (runQueue jobs)) j.arrival + j.duration,
          j.ok, j.value⟩] := by
  have h1 : arrivalMono jobs := (List.chain'_append.mp h).1
  rw [runQueue_eq_drainSpec _ h, runQueue_eq_drainSpec _ h1]
  exact drainSpec_append_one jobs j 0

theorem C6_append_executes_witness :
    runQueue ([⟨0, 0, 100, true, 1⟩] ++ [⟨1, 4000, 5, false, 2⟩]) =
      runQueue [⟨0, 0, 100, true, 1⟩] ++
        [⟨1, max (endTime 0 (runQueue [⟨0, 0, 100, true, 1⟩])) 4000,
          max (endTime 0 (runQueue [⟨0, 0, 100, true, 1⟩])) 4000 + 5,
          false, 2⟩] :=
  C6_append_executes _ _ (by simp [List.chain'_cons])

theorem mangaAssemble_shape (titles : List String)
    (genres exclude : Option (List String)) (u : Upstream)
    (base : MediaItem) :
    (∃ e, mangaAssemble titles genres exclude u base = .error e) ∨
    ∃ l b mt, mangaAssemble titles genres exclude u base =
      .ok (.json (List.take 5 l) b mt) := by
  unfold mangaAssemble
  repeat' split
  all_goals first
    | exact Or.inl ⟨_, rfl⟩
    | exact Or.inr ⟨_, _, _, rfl⟩

theorem mangaAssemble_caps (titles : List String)
    (genres exclude : Option (List String)) (u : Upstream)
    (base : MediaItem) (r : List RecOut) (b mt : String)
    (h : mangaAssemble titles genres exclude u base = .ok (.json r b mt)) :
    r.length ≤ 5 := by
  rcases mangaAssemble_shape titles genres exclude u base with
    ⟨e, he⟩ | ⟨l, b2, mt2, he⟩
  · rw [he] at h
    exact absurd h (by simp)
  · rw [he] at h
    simp only [Except.ok.injEq, HttpRes.json.injEq] at h
    rw [← h.1]
    exact List.length_take_le 5 _

theorem manhwaAssemble_shape (titles : List String)
    (genres exclude : Option (List String)) (u : Upstream)
    (manhwa : MediaItem) (baseTitle : String) :
    (∃ e, manhwaAssemble titles genres exclude u manhwa baseTitle =
      .error e) ∨
    ∃ l b mt, manhwaAssemble titles genres exclude u manhwa baseTitle =
      .ok (.json (List.take 5 l) b mt) := by
  unfold manhwaAssemble
  repeat' split
  all_goals first
    | exact Or.inl ⟨_, rfl⟩
    | exact Or.inr ⟨_, _, _, rfl⟩

theorem manhwaAssemble_caps (titles : List String)
    (genres exclude : Option (List String)) (u : Upstream)
    (manhwa : MediaItem) (baseTitle : String) (r : List RecOut)
    (b mt : String)
    (h : manhwaAssemble titles genres exclude u manhwa baseTitle =
      .ok (.json r b mt)) :
    r.length ≤ 5 := by
  rcases manhwaAssemble_shape titles genres exclude u manhwa baseTitle with
    ⟨e, he⟩ | ⟨l, b2, mt2, he⟩
  · rw [he] at h
    exact absurd h (by simp)
  · rw [he] at h
    simp only [Except.ok.injEq, HttpRes.json.injEq] at h
    rw [← h.1]
    exact List.length_take_le 5 _

theorem animeAssemble_shape (titles : List String)
    (genres exclude : Option (List String)) (u : Upstream)
    (base : MediaItem) :
    (∃ e, animeAssemble titles genres exclude u base = .error e) ∨
    ∃ l b mt, animeAssemble titles genres exclude u base =
      .ok (.json (List.take 5 l) b mt) := by
  unfold animeAssemble
  repeat' split
  all_goals first
    | exact Or.inl ⟨_, rfl⟩
    | exact Or.inr ⟨_, _, _, rfl⟩

theorem animeAssemble_caps (titles : List String)
    (genres exclude : Option (List String)) (u : Upstream)
    (base : MediaItem) (r : List RecOut) (b mt : String)
    (h : animeAssemble titles genres exclude u base = .ok (.json r b mt)) :
    r.length ≤ 5 := by
  rcases animeAssemble_shape titles genres exclude u base with
    ⟨e, he⟩ | ⟨l, b2, mt2, he⟩
  · rw [he] at h
    exact absurd h (by simp)
  · rw [he] at h
    simp only [Except.ok.injEq, HttpRes.json.injEq] at h
    rw [← h.1]
    exact List.length_take_le 5 _

theorem getManga_caps (titles : List String)
    (genres exclude : Option (List String)) (u : Upstream)
    (r : List RecOut) (b mt : String)
    (h : getMangaRecommendations titles genres exclude u =
      .ok (.json r b mt)) :
    r.length ≤ 5 := by
  unfold getMangaRecommendations at h
  repeat' split at h
  all_goals try exact mangaAssemble_caps _ _ _ _ _ _ _ _ h
  all_goals exact absurd h (by simp)

theorem getManhwa_caps (titles : List String)
    (genres exclude : Option (List String)) (u : Upstream)
    (r : List RecOut) (b mt : String)
    (h : getManhwaRecommendations titles genres exclude u =
      .ok (.json r b mt)) :
    r.length ≤ 5 := by
  unfold getManhwaRecommendations at h
  repeat' split at h
  all_goals try exact manhwaAssemble_caps _ _ _ _ _ _ _ _ _ h
  all_goals exact absurd h (by simp)

theorem getAnime_caps (titles : List String)
    (genres exclude : Option (List String)) (u : Upstream)
    (r : List RecOut) (b mt : String)
    (h : getAnimeRecommendations titles genres exclude u =
      .ok (.json r b mt)) :
    r.length ≤ 5 := by
  unfold getAnimeRecommendations at h
  repeat' split at h
  all_goals try exact animeAssemble_caps _ _ _ _ _ _ _ _ h
  all_goals exact absurd h (by simp)

theorem getManga_404 (titles : List String)
    (genres exclude : Option (List String)) (u : Upstream)
    (hs : ∀ q n, u.searchManga q n = .ok []) :
    ∃ m, getMangaRecommendations titles genres exclude u =
      .ok (.err 404 m none) := by
  unfold getMangaRecommendations
  simp only [hs]
  split
  · exact ⟨_, rfl⟩
  · exact ⟨_, rfl⟩

theorem getManhwa_404 (titles : List String)
    (genres exclude : Option (List String)) (u : Upstream)
    (hs : ∀ q n, u.searchManga q n = .ok []) :
    ∃ m, getManhwaRecommendations titles genres exclude u =
      .ok (.err 404 m none) := by
  unfold getManhwaRecommendations
  simp only [hs]
  split
  · exact ⟨_, rfl⟩
  · exact ⟨_, rfl⟩

theorem getAnime_404 (titles : List String)
    (genres exclude : Option (List String)) (u : Upstream)
    (hs : ∀ q n, u.searchAnime q n = .ok []) :
    ∃ m, getAnimeRecommendations titles genres exclude u =
      .ok (.err 404 m none) := by
  unfold getAnimeRecommendations
  simp only [hs]
  split
  · exact ⟨_, rfl⟩
  · exact ⟨_, rfl⟩

/-- Claim C7: every response of the POST route is a structured JSON value
(`HttpRes`), and the error statuses map as: 400 when `titles` is missing
or empty, with the response independent of the upstream (no job
submitted); 404 when no candidate title matches anything upstream (for
every media type); 500 with a diagnostic message when the dispatched
assembler fails unexpectedly. -/
theorem C7_error_status_mapping :
    (∀ (t : TitlesField) (g e : Option (List String)) (mt : String)
        (u : Upstream),
      (titlesFalsy t || titlesLength t == 0) = true →
      handleRecommend t g e mt u =
        .err 400 "Please provide at least one title" none) ∧
    (∀ (ts : List String) (g e : Option (List String)) (mt : String)
        (u : Upstream), ts ≠ [] →
      (∀ q n, u.searchManga q n = .ok []) →
      (∀ q n, u.searchAnime q n = .ok []) →
      ∃ m, handleRecommend (.arr ts) g e mt u = .err 404 m none) ∧
    (∀ (ts : List String) (g e : Option (List String)) (mt : String)
        (u : Upstream) (msg : String), ts ≠ [] →
      dispatch ts g e mt u = .error msg →
      handleRecommend (.arr ts) g e mt u =
        .err 500 "Failed to get recommendations" (some msg)) := by
  refine ⟨?_, ?_, ?_⟩
  · intro t g e mt u h
    unfold handleRecommend
    rw [if_pos h]
  · intro ts g e mt u hne hsm hsa
    have hlen : (ts.length == 0) = false := beq_eq_false_iff_ne.mpr
      (fun hh => hne (List.length_eq_zero.mp hh))
    have hd : ∃ m, dispatch ts g e mt u = .ok (.err 404 m none) := by
      unfold dispatch
      split
      · exact getAnime_404 ts g e u hsa
      · split
        · exact getManhwa_404 ts g e u hsm
        · exact getManga_404 ts g e u hsm
    obtain ⟨m, hm⟩ := hd
    refine ⟨m, ?_⟩
    unfold handleRecommend
    rw [if_neg (by simp [titlesFalsy, titlesLength, hlen])]
    simp only [joinTitles, titlesList, hm]
  · intro ts g e mt u msg hne hdisp
    have hlen : (ts.length == 0) = false := beq_eq_false_iff_ne.mpr
      (fun hh => hne (List.length_eq_zero.mp hh))
    unfold handleRecommend
    rw [if_neg (by simp [titlesFalsy, titlesLength, hlen])]
    simp only [joinTitles, titlesList, hdisp]

theorem C7_error_status_mapping_witness :
    handleRecommend .missing none none "manga" emptyUpstream =
      .err 400 "Please provide at least one title" none ∧
    (∃ m, handleRecommend (.arr ["x"]) none none "manga" emptyUpstream =
      .err 404 m none) ∧
    handleRecommend (.arr ["x"]) none none "manga" brokenUpstream =
      .err 500 "Failed to get recommendations" (some "boom") :=
  ⟨C7_error_status_mapping.1 .missing none none "manga" emptyUpstream rfl,
   C7_error_status_mapping.2.1 ["x"] none none "manga" emptyUpstream
     (by decide) (fun _ _ => rfl) (fun _ _ => rfl),
   C7_error_status_mapping.2.2 ["x"] none none "manga" brokenUpstream
     "boom" (by decide) rfl⟩

/-- Claim C8: every successful (JSON body) response of any of the three
assemblers carries at most 5 recommendation records, whatever the
upstream returned for any tier. -/
theorem C8_recommendations_capped :
    (∀ (titles : List String) (genres exclude : Option (List String))
        (u : Upstream) (r : List RecOut) (b mt : String),
      getMangaRecommendations titles genres exclude u =
        .ok (.json r b mt) → r.length ≤ 5) ∧
    (∀ (titles : List String) (genres exclude : Option (List String))
        (u : Upstream) (r : List RecOut) (b mt : String),
      getManhwaRecommendations titles genres exclude u =
        .ok (.json r b mt) → r.length ≤ 5) ∧
    (∀ (titles : List String) (genres exclude : Option (List String))
        (u : Upstream) (r : List RecOut) (b mt : String),
      getAnimeRecommendations titles genres exclude u =
        .ok (.json r b mt) → r.length ≤ 5) :=
  ⟨fun t g e u r b mt h => getManga_caps t g e u r b mt h,
   fun t g e u r b mt h => getManhwa_caps t g e u r b mt h,
   fun t g e u r b mt h => getAnime_caps t g e u r b mt h⟩

theorem C8_recommendations_capped_witness :
    ([mangaGenreRecOut ["Berserk"] ⟨4, "Action"⟩ bypassHorror] :
      List RecOut).length ≤ 5 :=
  C8_recommendations_capped.1 ["Berserk"] none none bypassUpstream
    _ "Base Manga" "manga" rfl

/-- Claim C9: in the manga and anime assemblers the caller's `genres` and
`exclude` filters are applied only to the crowd-sourced tier; records
appended by the genre-based (and top-ranked) fallback tiers are never
checked, so the response can contain a record whose genre list includes
an excluded genre, and which matches none of the requested genres: on
`bypassUpstream` the response is the same single horror record for every
choice of the two filters, although both filters would reject it. -/
theorem C9_fallback_tiers_unfiltered :
    (∀ genres exclude : Option (List String),
      getMangaRecommendations ["Berserk"] genres exclude bypassUpstream =
        .ok (.json [mangaGenreRecOut ["Berserk"] ⟨4, "Action"⟩ bypassHorror]
          "Base Manga" "manga")) ∧
    excludeFilterRejects (some ["horror"]) bypassHorror = true ∧
    genreFilterRejects (some ["romance"]) bypassHorror = true ∧
    "Horror" ∈ (mangaGenreRecOut ["Berserk"] ⟨4, "Action"⟩
      bypassHorror).genres ∧
    (∀ genres exclude : Option (List String),
      getAnimeRecommendations ["Monster"] genres exclude bypassUpstream =
        .ok (.json
          [animeGenreRecOut ["Monster"] ⟨4, "Action"⟩ bypassHorrorAnime]
          "Base Anime" "anime")) ∧
    excludeFilterRejects (some ["horror"]) bypassHorrorAnime = true ∧
    genreFilterRejects (some ["romance"]) bypassHorrorAnime = true ∧
    "Horror" ∈ (animeGenreRecOut ["Monster"] ⟨4, "Action"⟩
      bypassHorrorAnime).genres :=
  ⟨fun _ _ => rfl, by decide, by decide, by decide,
   fun _ _ => rfl, by decide, by decide, by decide⟩

/-- Claim C10: a truthy non-array `titles` with a non-zero `length` (a
non-empty string) passes the validation check (no 400), and the request
ends in the 500 response because `titles.join` throws for non-arrays, for
every upstream and every media type. -/
theorem C10_string_titles_pass_validation_then_500 :
    (∀ (u : Upstream) (g e : Option (List String)) (mt : String),
      handleRecommend (.str "abc") g e mt u =
        .err 500 "Failed to get recommendations"
          (some "titles.join is not a function")) ∧
    (titlesFalsy (.str "abc") || titlesLength (.str "abc") == 0) = false :=
  ⟨fun _ _ _ _ => rfl, rfl⟩
